import Mathlib

/-!
# Verification of the ActivityBoard client (`src/static/app.js`)

A shallow embedding of the browser-side activity board: the DOM content it
renders is modelled as a tree of nodes, the three network calls are modelled
by explicit result values, and each event handler becomes a pure function from
its inputs and the current state to the next state.

Conventions:
* JSON catalog payloads become `List (String × Activity)` in server key order.
* `document.createElement` / `textContent` / `createTextNode` construction
  becomes explicit `Node` values; an `innerHTML` assignment of a constant
  string becomes the constant parsed node.
* `querySelector` over a card's descendants becomes a pre-order first-match
  search (`updateFirstList`).
* `console.error` output is returned alongside the new state where a claim
  talks about the diagnostic.
-/

/-- An activity catalog entry as returned by `GET /activities`. -/
structure Activity where
  description : String
  schedule : String
  max_participants : Int
  participants : List String
deriving Repr, DecidableEq

/-- The derived value `spotsLeft = details.max_participants - details.participants.length`. -/
def spotsLeft (d : Activity) : Int :=
  d.max_participants - (d.participants.length : Int)

/-- The catalog mapping, in server key order (`Object.entries`). -/
abbrev Catalog := List (String × Activity)

/-- JavaScript `activities[activityName]` on the parsed catalog object. -/
def jsLookup (cat : Catalog) (k : String) : Option Activity :=
  (cat.find? (fun p => p.1 == k)).map (·.2)

/-- A DOM node: an element with a tag, attributes in the order they were set,
and children; or a text node. -/
inductive Node where
  | elem (tag : String) (attrs : List (String × String)) (children : List Node)
  | text (s : String)

/-- Attribute lookup on an element's attribute list. -/
def getAttr (attrs : List (String × String)) (k : String) : Option String :=
  (attrs.find? (fun p => p.1 == k)).map (·.2)

/-- Split a string at spaces (the token list of a `class` attribute value). -/
def splitTokens (s : String) : List String :=
  (s.data.splitOn ' ').map (fun l => String.mk l)

/-- Does the node's `class` attribute contain the given class token
(the match performed by a `.cls` CSS selector)? -/
def hasClassWord (n : Node) (c : String) : Bool :=
  match n with
  | Node.elem _ attrs _ =>
    match getAttr attrs "class" with
    | some s => (splitTokens s).contains c
    | none => false
  | Node.text _ => false

/-- Replace an element's children, keeping tag and attributes: the effect of
`el.innerHTML = ''` followed by appending a fresh list of children. -/
def setChildren (cs : List Node) : Node → Node
  | Node.elem t a _ => Node.elem t a cs
  | Node.text s => Node.text s

mutual
/-- Pre-order search-and-replace inside one node's descendants
(`querySelector` on that node followed by an in-place mutation);
`none` when no descendant matches. -/
def updateFirstNode (p : Node → Bool) (f : Node → Node) : Node → Option Node
  | Node.text _ => none
  | Node.elem t a cs => (updateFirstList p f cs).map (Node.elem t a)

/-- Pre-order search-and-replace over a forest, document order. -/
def updateFirstList (p : Node → Bool) (f : Node → Node) : List Node → Option (List Node)
  | [] => none
  | n :: rest =>
    if p n then some (f n :: rest)
    else
      match updateFirstNode p f n with
      | some n' => some (n' :: rest)
      | none => (updateFirstList p f rest).map (n :: ·)
end

mutual
/-- The `textContent` of a node: concatenation of its text leaves. -/
def textContent : Node → String
  | Node.text s => s
  | Node.elem _ _ cs => textContentList cs

/-- The `textContent` of a forest. -/
def textContentList : List Node → String
  | [] => ""
  | n :: rest => textContent n ++ textContentList rest
end

mutual
/-- The text-node payloads of a node, in document order. -/
def textLeaves : Node → List String
  | Node.text s => [s]
  | Node.elem _ _ cs => textLeavesList cs

/-- Text-node payloads of a forest. -/
def textLeavesList : List Node → List String
  | [] => []
  | n :: rest => textLeaves n ++ textLeavesList rest
end

mutual
/-- Erase every string payload of a tree (text contents and attribute values),
keeping tags, attribute keys and the tree shape: the part of the rendered
output that an injected string could have influenced had it been parsed as
markup. -/
def eraseStrings : Node → Node
  | Node.text _ => Node.text ""
  | Node.elem t a cs => Node.elem t (a.map (fun p => (p.1, ""))) (eraseStringsList cs)

/-- The map of `eraseStrings` over a forest. -/
def eraseStringsList : List Node → List Node
  | [] => []
  | n :: rest => eraseStrings n :: eraseStringsList rest
end

/-- A `<strong>` element with a text child. -/
def strongNode (s : String) : Node := Node.elem "strong" [] [Node.text s]

/-- One participant `<li>`: the email as text plus the delete button
(`listItem.textContent = email; listItem.appendChild(deleteBtn)`). -/
def renderParticipantLi (name email : String) : Node :=
  Node.elem "li" []
    [Node.text email,
     Node.elem "button"
       [("class", "remove-participant-btn"),
        ("data-activity", name),
        ("data-email", email),
        ("aria-label", "Remove " ++ email ++ " from " ++ name)]
       [Node.text "🗑️"]]

/-- Children written into a participants section: the `Participants:` label,
then either the `<ul>` of participants or the placeholder paragraph. This
construction appears verbatim both in `fetchActivities` and in
`updateActivityCard`. -/
def participantsChildren (name : String) (participants : List String) : List Node :=
  strongNode "Participants:" ::
    (if participants.length > 0 then
      [Node.elem "ul" [("class", "participants-list")]
        (participants.map (renderParticipantLi name))]
    else
      [Node.elem "p" [("class", "no-participants")]
        [Node.text "No participants yet. Be the first to sign up!"]])

/-- Children written into an availability paragraph: the `Availability:` label
and the text node `` ` ${spotsLeft} spots left` ``. This construction appears
verbatim both in `fetchActivities` and in `updateActivityCard`. -/
def availChildren (spots : Int) : List Node :=
  [strongNode "Availability:", Node.text (" " ++ toString spots ++ " spots left")]

/-- One activity card as built by `fetchActivities`: `h4` title, description
paragraph, schedule paragraph, availability paragraph, participants section. -/
def renderCard (name : String) (d : Activity) : Node :=
  Node.elem "div" [("class", "activity-card"), ("data-activity-name", name)]
    [Node.elem "h4" [] [Node.text name],
     Node.elem "p" [] [Node.text d.description],
     Node.elem "p" [] [strongNode "Schedule:", Node.text (" " ++ d.schedule)],
     Node.elem "p" [("class", "availability")] (availChildren (spotsLeft d)),
     Node.elem "div" [("class", "participants-section")]
       (participantsChildren name d.participants)]

/-- One `<option>` appended to the activity select. -/
def renderOption (name : String) : Node :=
  Node.elem "option" [("value", name)] [Node.text name]

/-- The static failure markup assigned to the container on a load error. -/
def failedNode : Node :=
  Node.elem "p" [] [Node.text "Failed to load activities. Please try again later."]

/-- The DOM surface the script owns: children of `#activities-list` and the
`<option>` children of `#activity`. -/
structure DomState where
  activitiesList : List Node
  activitySelect : List Node

/-- Outcome of `fetch("/activities")` followed by `response.json()`:
either a parsed catalog or a thrown network/parse error. -/
inductive FetchResult where
  | ok (cat : Catalog)
  | err

/-- The function `fetchActivities`: on success clears the container, renders one card per
catalog entry and appends one option per entry to the select (which is never
cleared); on a thrown error replaces the container with the failure message. -/
def fetchActivities (res : FetchResult) (st : DomState) : DomState :=
  match res with
  | FetchResult.ok cat =>
    { activitiesList := cat.map (fun p => renderCard p.1 p.2),
      activitySelect := st.activitySelect ++ cat.map (fun p => renderOption p.1) }
  | FetchResult.err =>
    { st with activitiesList := [failedNode] }

/-- The `[data-activity-name="…"]` selector match. -/
def isCardFor (name : String) (n : Node) : Bool :=
  match n with
  | Node.elem _ attrs _ => getAttr attrs "data-activity-name" == some name
  | Node.text _ => false

/-- Replace the first node satisfying the predicate (the in-place mutation of
the card `querySelector` returned). -/
def replaceFirstBy (p : Node → Bool) (x : Node) : List Node → List Node
  | [] => []
  | n :: rest => if p n then x :: rest else n :: replaceFirstBy p x rest

/-- The availability update of `updateActivityCard`: rewrite the first
`.availability` descendant's children; if there is none, skip
(`if (availabilityParagraph) { … }`). -/
def patchAvail (d : Activity) (card : Node) : Node :=
  match card with
  | Node.elem t a cs =>
    match updateFirstList (fun n => hasClassWord n "availability")
        (setChildren (availChildren (spotsLeft d))) cs with
    | some cs' => Node.elem t a cs'
    | none => Node.elem t a cs
  | Node.text s => Node.text s

/-- The participants update of `updateActivityCard`: rewrite the first
`.participants-section` descendant's children; `none` models the `TypeError`
thrown by `participantsSection.innerHTML = ''` when the selector found
nothing. -/
def patchPsec (name : String) (d : Activity) (card : Node) : Option Node :=
  match card with
  | Node.elem t a cs =>
    (updateFirstList (fun n => hasClassWord n "participants-section")
        (setChildren (participantsChildren name d.participants)) cs).map (Node.elem t a)
  | Node.text _ => none

/-- The function `updateActivityCard(activityName)`. `res` is the outcome of its own
`/activities` fetch; `res2` is the outcome of the fetch performed by the
fallback `fetchActivities()` call in the `catch` block, when reached. The
second component collects the `console.error` diagnostics. -/
def updateActivityCard (activityName : String) (res res2 : FetchResult)
    (st : DomState) : DomState × List String :=
  match res with
  | FetchResult.err =>
    (fetchActivities res2 st, ["Error updating activity card:"])
  | FetchResult.ok activities =>
    match jsLookup activities activityName with
    | none => (st, ["Activity " ++ activityName ++ " not found"])
    | some details =>
      match st.activitiesList.find? (isCardFor activityName) with
      | none => (st, ["Card for " ++ activityName ++ " not found"])
      | some existingCard =>
        let card1 := patchAvail details existingCard
        match patchPsec activityName details card1 with
        | some card2 =>
          ({ st with activitiesList :=
              replaceFirstBy (isCardFor activityName) card2 st.activitiesList }, [])
        | none =>
          let stMid : DomState :=
            { st with activitiesList :=
                replaceFirstBy (isCardFor activityName) card1 st.activitiesList }
          (fetchActivities res2 stMid, ["Error updating activity card:"])

/-! ## Message toast (`showMessage`) and its hide timers -/

/-- The `classList` content of a `className = s` assignment. -/
def setClassName (s : String) : List String :=
  if s = "" then [] else splitTokens s

/-- The effect of `classList.remove c`. -/
def classListRemove (c : String) (cs : List String) : List String :=
  cs.filter (fun x => x ≠ c)

/-- The effect of `classList.add c`. -/
def classListAdd (c : String) (cs : List String) : List String :=
  if c ∈ cs then cs else cs ++ [c]

/-- The message element together with the pending `setTimeout` hide callbacks
(fire times in ms) and the current clock. -/
structure ToastState where
  text : String
  classes : List String
  timers : List Nat
  now : Nat
deriving Repr, DecidableEq

/-- The function `showMessage(text, type)`: set `textContent`, set `className = type`,
remove `hidden`, and schedule a new hide callback 5000 ms out. The previous
timers are NOT cancelled. -/
def showMessage (text type : String) (s : ToastState) : ToastState :=
  { text := text,
    classes := classListRemove "hidden" (setClassName type),
    timers := s.timers ++ [s.now + 5000],
    now := s.now }

/-- Advance the clock to `t`, firing every due hide callback in order; each
fired callback performs `classList.add "hidden"`. -/
def advanceTo (t : Nat) (s : ToastState) : ToastState :=
  { text := s.text,
    classes := (s.timers.filter (fun ft => ft ≤ t)).foldl
      (fun cs _ => classListAdd "hidden" cs) s.classes,
    timers := s.timers.filter (fun ft => ¬ ft ≤ t),
    now := t }

/-- The message is visible iff `hidden` is not among its classes. -/
def toastVisible (s : ToastState) : Prop := "hidden" ∉ s.classes

instance (s : ToastState) : Decidable (toastVisible s) := by
  unfold toastVisible; infer_instance

/-! ## Network results and event handlers -/

/-- A parsed JSON body of a signup/unregister response. -/
structure MutationBody where
  message : Option String
  detail : Option String
deriving Repr, DecidableEq

/-- Outcome of the signup/unregister fetch: a response (with `response.ok`
and parsed body) or a thrown network/parse error. -/
inductive MutationResult where
  | resp (ok : Bool) (body : MutationBody)
  | netErr

/-- JavaScript `x || fallback` on an optional string field: the fallback is
used when the field is absent or the empty string (both falsy). -/
def jsOrElse (o : Option String) (fallback : String) : String :=
  match o with
  | some s => if s = "" then fallback else s
  | none => fallback

/-- The assignment `textContent = v` for a possibly-undefined `v`: `undefined` stringifies. -/
def jsUndefToStr (o : Option String) : String := o.getD "undefined"

/-- The signup form submit handler. Inputs: the selected activity and email,
the outcome of the POST, and the two fetch outcomes `updateActivityCard`
would consume when called. Output: the new DOM, the new toast, and whether
`signupForm.reset()` ran. -/
def onSignupSubmit (activity email : String) (res : MutationResult)
    (refreshRes refreshRes2 : FetchResult) (dom : DomState) (toast : ToastState) :
    DomState × ToastState × Bool :=
  match res with
  | MutationResult.resp ok body =>
    if ok then
      ((updateActivityCard activity refreshRes refreshRes2 dom).1,
       showMessage (jsUndefToStr body.message) "success" toast, true)
    else
      (dom, showMessage (jsOrElse body.detail "An error occurred") "error" toast, false)
  | MutationResult.netErr =>
    (dom, showMessage "Failed to sign up. Please try again." "error" toast, false)

/-- The delegated click handler on the activities container. Inputs: whether
the click target carries the `remove-participant-btn` class, the activity and
email read from its data attributes, the `confirm(...)` answer, the outcome of
the DELETE, and the fetch outcomes for the card refresh. Output: new DOM, new
toast, and whether an HTTP request was issued. -/
def onActivitiesListClick (isRemoveBtn : Bool) (activity email : String)
    (confirmed : Bool) (res : MutationResult)
    (refreshRes refreshRes2 : FetchResult) (dom : DomState) (toast : ToastState) :
    DomState × ToastState × Bool :=
  if isRemoveBtn then
    if confirmed then
      match res with
      | MutationResult.resp ok body =>
        if ok then
          ((updateActivityCard activity refreshRes refreshRes2 dom).1,
           showMessage (jsUndefToStr body.message) "success" toast, true)
        else
          (dom, showMessage (jsOrElse body.detail "An error occurred") "error" toast, true)
      | MutationResult.netErr =>
        (dom, showMessage "Failed to remove participant. Please try again." "error" toast, true)
    else (dom, toast, false)
  else (dom, toast, false)

/-! ## Sample data for concrete evaluations -/

/-- A sample catalog entry. -/
def sampleActivity : Activity :=
  { description := "Learn strategies and compete in chess tournaments",
    schedule := "Fridays, 3:30 PM - 5:00 PM",
    max_participants := 10,
    participants := ["a@x.com"] }

/-- A one-entry sample catalog. -/
def sampleCatalog : Catalog := [("Chess Club", sampleActivity)]

/-- The DOM before the first render. -/
def emptyDom : DomState := { activitiesList := [], activitySelect := [] }

/-- The message element as the page ships it: hidden, no pending timers. -/
def toastInit : ToastState := { text := "", classes := ["hidden"], timers := [], now := 0 }

/-! ## Observation helpers and general lemmas -/

/-- The `[value="…"]` match on a rendered option. -/
def optionIsFor (name : String) (n : Node) : Bool :=
  match n with
  | Node.elem _ attrs _ => getAttr attrs "value" == some name
  | Node.text _ => false

/-- The displayed text of a card's availability paragraph, when the card has
one among its children. -/
def cardAvailabilityText (card : Node) : Option String :=
  match card with
  | Node.elem _ _ cs => (cs.find? (fun n => hasClassWord n "availability")).map textContent
  | Node.text _ => none

theorem str_append_empty (s : String) : s ++ "" = s := by
  cases s with
  | mk data =>
    show String.mk (data ++ []) = String.mk data
    rw [List.append_nil]

theorem isCardFor_renderCard (k n : String) (d : Activity) :
    isCardFor k (renderCard n d) = (n == k) := rfl

theorem optionIsFor_renderOption (k n : String) :
    optionIsFor k (renderOption n) = (n == k) := rfl

theorem filter_map_comm {α β : Type} (f : α → β) (p : β → Bool) (l : List α) :
    (l.map f).filter p = (l.filter (fun a => p (f a))).map f := by
  induction l with
  | nil => rfl
  | cons a t ih =>
    by_cases h : p (f a) = true
    · simp [List.filter_cons, h, ih]
    · simp only [Bool.not_eq_true] at h
      simp [List.filter_cons, h, ih]

theorem filter_key_of_nodup (cat : Catalog) (k : String) (d : Activity)
    (hnd : (cat.map Prod.fst).Nodup) (hm : (k, d) ∈ cat) :
    cat.filter (fun p => p.1 == k) = [(k, d)] := by
  induction cat with
  | nil => cases hm
  | cons hd t ih =>
    simp only [List.map_cons, List.nodup_cons] at hnd
    rcases List.mem_cons.mp hm with heq | hmt
    · subst heq
      have ht : t.filter (fun p => p.1 == k) = [] := by
        apply List.filter_eq_nil_iff.mpr
        intro a ha
        simp only [beq_iff_eq]
        intro hk
        have hmem : a.1 ∈ t.map Prod.fst := List.mem_map_of_mem Prod.fst ha
        rw [hk] at hmem
        exact hnd.1 hmem
      simp [List.filter_cons, ht]
    · have hne : ¬ (hd.1 == k) = true := by
        simp only [beq_iff_eq]
        intro hk
        have hmem : k ∈ t.map Prod.fst := List.mem_map_of_mem Prod.fst hmt
        rw [← hk] at hmem
        exact hnd.1 hmem
      simp only [List.filter_cons, hne, if_neg, Bool.false_eq_true, if_false]
      exact ih hnd.2 hmt

theorem cardAvailabilityText_renderCard (k : String) (d : Activity) :
    cardAvailabilityText (renderCard k d)
      = some ("Availability:" ++ (" " ++ toString (d.max_participants -
          (d.participants.length : Int)) ++ " spots left")) := by
  show some (textContent (Node.elem "p" [("class", "availability")]
      (availChildren (spotsLeft d)))) = _
  simp [textContent, textContentList, availChildren, strongNode, str_append_empty, spotsLeft]

/-- C1: for every catalog mapping returned by the server, a full-load render
(`fetchActivities`) produces exactly one card and exactly one select option
per key of the mapping, and each card's displayed spots-left text equals
`max_participants` minus the length of that key's participants list. -/
theorem fetchActivities_one_card_one_option_correct_spots
    (cat : Catalog) (st : DomState) (k : String) (d : Activity)
    (hnd : (cat.map Prod.fst).Nodup) (hm : (k, d) ∈ cat) :
    (fetchActivities (FetchResult.ok cat) st).activitiesList.filter (isCardFor k)
        = [renderCard k d]
    ∧ ((fetchActivities (FetchResult.ok cat) st).activitySelect.drop
          st.activitySelect.length).filter (optionIsFor k) = [renderOption k]
    ∧ cardAvailabilityText (renderCard k d)
        = some ("Availability:" ++ (" " ++ toString (d.max_participants -
            (d.participants.length : Int)) ++ " spots left")) := by
  refine ⟨?_, ?_, cardAvailabilityText_renderCard k d⟩
  · show (cat.map (fun p => renderCard p.1 p.2)).filter (isCardFor k) = _
    rw [filter_map_comm]
    simp only [isCardFor_renderCard]
    have hpred : (fun a : String × Activity => a.1 == k)
        = (fun a : String × Activity => (fun p : String × Activity => p.1 == k) a) := rfl
    rw [show (fun a : String × Activity => renderCard a.1 a.2) = (fun a : String × Activity => renderCard a.1 a.2) from rfl,
       filter_key_of_nodup cat k d hnd hm]
    rfl
  · show ((st.activitySelect ++ cat.map (fun p => renderOption p.1)).drop
        st.activitySelect.length).filter (optionIsFor k) = _
    rw [List.drop_left, filter_map_comm]
    simp only [optionIsFor_renderOption]
    rw [filter_key_of_nodup cat k d hnd hm]
    rfl

/-- Witness for C1 at a concrete one-entry catalog. -/
theorem fetchActivities_one_card_one_option_correct_spots_witness :
    ((sampleCatalog.map Prod.fst).Nodup ∧ ("Chess Club", sampleActivity) ∈ sampleCatalog)
    ∧ ((fetchActivities (FetchResult.ok sampleCatalog) emptyDom).activitiesList.filter
          (isCardFor "Chess Club") = [renderCard "Chess Club" sampleActivity]
       ∧ ((fetchActivities (FetchResult.ok sampleCatalog) emptyDom).activitySelect.drop
            emptyDom.activitySelect.length).filter (optionIsFor "Chess Club")
          = [renderOption "Chess Club"]
       ∧ cardAvailabilityText (renderCard "Chess Club" sampleActivity)
          = some ("Availability:" ++ (" " ++ toString (sampleActivity.max_participants -
              (sampleActivity.participants.length : Int)) ++ " spots left"))) :=
  ⟨⟨by decide, by decide⟩,
   fetchActivities_one_card_one_option_correct_spots sampleCatalog emptyDom
     "Chess Club" sampleActivity (by decide) (by decide)⟩

/-- C2 counterexample: rendering the same one-entry catalog twice leaves a
different number of select options than rendering it once (2 versus 1),
because `fetchActivities` never clears the select before appending. -/
theorem fetchActivities_twice_select_count_differs :
    (fetchActivities (FetchResult.ok sampleCatalog)
        (fetchActivities (FetchResult.ok sampleCatalog) emptyDom)).activitySelect.length = 2
    ∧ (fetchActivities (FetchResult.ok sampleCatalog) emptyDom).activitySelect.length = 1
    ∧ (2 : Nat) ≠ 1 := by
  refine ⟨rfl, rfl, by decide⟩

/-- C2 amended: calling the full-load render twice in succession with an
unchanged catalog reproduces the card list of a single call exactly, but the
select control is not cleared, so the second call appends one additional
option per catalog key on top of those of the first call. -/
theorem fetchActivities_twice_cards_same_options_accumulate
    (cat : Catalog) (st : DomState) :
    (fetchActivities (FetchResult.ok cat)
        (fetchActivities (FetchResult.ok cat) st)).activitiesList
      = (fetchActivities (FetchResult.ok cat) st).activitiesList
    ∧ (fetchActivities (FetchResult.ok cat)
        (fetchActivities (FetchResult.ok cat) st)).activitySelect
      = (fetchActivities (FetchResult.ok cat) st).activitySelect
          ++ cat.map (fun p => renderOption p.1) :=
  ⟨rfl, rfl⟩

/-- C5: if the freshly fetched catalog has no entry for the requested name,
or no rendered card with that name exists, `updateActivityCard` logs a
diagnostic and returns without modifying the DOM. -/
theorem updateActivityCard_defensive_noop (A : String) (cat : Catalog)
    (res2 : FetchResult) (st : DomState) :
    (jsLookup cat A = none →
      updateActivityCard A (FetchResult.ok cat) res2 st
        = (st, ["Activity " ++ A ++ " not found"]))
    ∧ (∀ d, jsLookup cat A = some d →
        st.activitiesList.find? (isCardFor A) = none →
        updateActivityCard A (FetchResult.ok cat) res2 st
          = (st, ["Card for " ++ A ++ " not found"])) := by
  constructor
  · intro h
    simp [updateActivityCard, h]
  · intro d hd hc
    simp [updateActivityCard, hd, hc]

/-- Witness for C5: a name absent from the sample catalog, and a name present
in the catalog but with no rendered card in an empty container. -/
theorem updateActivityCard_defensive_noop_witness :
    (jsLookup sampleCatalog "Art Club" = none
      ∧ updateActivityCard "Art Club" (FetchResult.ok sampleCatalog) FetchResult.err emptyDom
          = (emptyDom, ["Activity " ++ "Art Club" ++ " not found"]))
    ∧ (jsLookup sampleCatalog "Chess Club" = some sampleActivity
      ∧ emptyDom.activitiesList.find? (isCardFor "Chess Club") = none
      ∧ updateActivityCard "Chess Club" (FetchResult.ok sampleCatalog) FetchResult.err emptyDom
          = (emptyDom, ["Card for " ++ "Chess Club" ++ " not found"])) :=
  ⟨⟨rfl, (updateActivityCard_defensive_noop "Art Club" sampleCatalog
      FetchResult.err emptyDom).1 rfl⟩,
   ⟨rfl, rfl, (updateActivityCard_defensive_noop "Chess Club" sampleCatalog
      FetchResult.err emptyDom).2 sampleActivity rfl rfl⟩⟩

/-- C6: if `updateActivityCard`'s own fetch (or JSON parse) throws, the catch
block falls back to a full catalog reload via `fetchActivities`, whatever
that reload's own fetch returns. -/
theorem updateActivityCard_err_falls_back (A : String) (res2 : FetchResult)
    (st : DomState) :
    updateActivityCard A FetchResult.err res2 st
      = (fetchActivities res2 st, ["Error updating activity card:"]) := rfl

theorem find?_append_of_none {α : Type} (p : α → Bool) (pre l : List α)
    (h : ∀ c ∈ pre, p c = false) : (pre ++ l).find? p = l.find? p := by
  induction pre with
  | nil => rfl
  | cons a t ih =>
    have ha : p a = false := h a (List.mem_cons_self a t)
    rw [List.cons_append, List.find?_cons_of_neg _ (by simp [ha]),
      ih (fun c hc => h c (List.mem_cons_of_mem a hc))]

theorem replaceFirstBy_append (p : Node → Bool) (x : Node) (pre l : List Node)
    (h : ∀ c ∈ pre, p c = false) :
    replaceFirstBy p x (pre ++ l) = pre ++ replaceFirstBy p x l := by
  induction pre with
  | nil => rfl
  | cons a t ih =>
    have ha : p a = false := h a (List.mem_cons_self a t)
    simp only [List.cons_append, replaceFirstBy, ha, Bool.false_eq_true, if_false]
    rw [show t.append l = t ++ l from rfl,
      ih (fun c hc => h c (List.mem_cons_of_mem a hc))]

/-- The card produced by a successful `updateActivityCard` patch of a card
that was rendered from `dOld`, given fresh details `d`: the title, description
and schedule children are untouched; the availability children and the
participants-section children are rewritten from `d`. -/
def patchedCard (A : String) (dOld d : Activity) : Node :=
  Node.elem "div" [("class", "activity-card"), ("data-activity-name", A)]
    [Node.elem "h4" [] [Node.text A],
     Node.elem "p" [] [Node.text dOld.description],
     Node.elem "p" [] [strongNode "Schedule:", Node.text (" " ++ dOld.schedule)],
     Node.elem "p" [("class", "availability")] (availChildren (spotsLeft d)),
     Node.elem "div" [("class", "participants-section")]
       (participantsChildren A d.participants)]

theorem patch_renderCard (A : String) (dOld d : Activity) :
    patchPsec A d (patchAvail d (renderCard A dOld)) = some (patchedCard A dOld d) := rfl

/-- C4: a successful single-card refresh for activity `A` replaces only the
availability children and the participants-section children of `A`'s card;
the card's title, description and schedule, every card before and after it,
and the select control are left unchanged (and no diagnostic is logged). -/
theorem updateActivityCard_patches_only_dynamic_parts
    (A : String) (cat : Catalog) (d dOld : Activity) (res2 : FetchResult)
    (sel pre post : List Node)
    (hlook : jsLookup cat A = some d)
    (hpre : ∀ c ∈ pre, isCardFor A c = false) :
    updateActivityCard A (FetchResult.ok cat) res2
        { activitiesList := pre ++ renderCard A dOld :: post, activitySelect := sel }
      = ({ activitiesList := pre ++ patchedCard A dOld d :: post,
           activitySelect := sel }, []) := by
  have hcard : isCardFor A (renderCard A dOld) = true := by
    rw [isCardFor_renderCard]; exact beq_self_eq_true A
  have hfind : (pre ++ renderCard A dOld :: post).find? (isCardFor A)
      = some (renderCard A dOld) := by
    rw [find?_append_of_none _ pre _ hpre, List.find?_cons_of_pos _ hcard]
  have hrepl : replaceFirstBy (isCardFor A) (patchedCard A dOld d)
      (pre ++ renderCard A dOld :: post)
      = pre ++ patchedCard A dOld d :: post := by
    rw [replaceFirstBy_append _ _ pre _ hpre]
    simp only [replaceFirstBy, hcard, if_true]
  simp only [updateActivityCard, hlook, hfind, patch_renderCard, hrepl]

/-- Witness for C4: refreshing the rendered sample card after a second
participant signed up. -/
theorem updateActivityCard_patches_only_dynamic_parts_witness :
    (jsLookup [("Chess Club", { sampleActivity with participants := ["a@x.com", "b@y.com"] })]
        "Chess Club" = some { sampleActivity with participants := ["a@x.com", "b@y.com"] })
    ∧ (∀ c ∈ ([] : List Node), isCardFor "Chess Club" c = false)
    ∧ updateActivityCard "Chess Club"
        (FetchResult.ok [("Chess Club", { sampleActivity with participants := ["a@x.com", "b@y.com"] })])
        FetchResult.err
        { activitiesList := [] ++ renderCard "Chess Club" sampleActivity :: [],
          activitySelect := [renderOption "Chess Club"] }
      = ({ activitiesList := [] ++ patchedCard "Chess Club" sampleActivity
             { sampleActivity with participants := ["a@x.com", "b@y.com"] } :: [],
           activitySelect := [renderOption "Chess Club"] }, []) :=
  ⟨rfl, by simp,
   updateActivityCard_patches_only_dynamic_parts "Chess Club"
     [("Chess Club", { sampleActivity with participants := ["a@x.com", "b@y.com"] })]
     { sampleActivity with participants := ["a@x.com", "b@y.com"] } sampleActivity
     FetchResult.err [renderOption "Chess Club"] [] [] rfl (by simp)⟩

/-- C10: in `updateActivityCard`, a card missing its availability element is
tolerated — the availability update is skipped and the patch continues (and
succeeds when a participants section exists) — but a card missing its
participants-section element makes the patch abort with an exception that is
caught and triggers a full catalog reload via `fetchActivities`, rather than
the documented no-op or a partial patch. -/
theorem updateActivityCard_missing_availability_vs_participants (d : Activity) :
    (∀ (A : String) (cat : Catalog) (res2 : FetchResult) (st : DomState)
        (tag : String) (attrs : List (String × String)) (cs : List Node) (card2 : Node),
      jsLookup cat A = some d →
      st.activitiesList.find? (isCardFor A) = some (Node.elem tag attrs cs) →
      updateFirstList (fun n => hasClassWord n "availability")
          (setChildren (availChildren (spotsLeft d))) cs = none →
      patchPsec A d (Node.elem tag attrs cs) = some card2 →
      updateActivityCard A (FetchResult.ok cat) res2 st
        = ({ st with activitiesList :=
              replaceFirstBy (isCardFor A) card2 st.activitiesList }, []))
    ∧ (∀ (A : String) (cat : Catalog) (res2 : FetchResult) (st : DomState) (card : Node),
        jsLookup cat A = some d →
        st.activitiesList.find? (isCardFor A) = some card →
        patchPsec A d (patchAvail d card) = none →
        updateActivityCard A (FetchResult.ok cat) res2 st
          = (fetchActivities res2
              { st with activitiesList :=
                  replaceFirstBy (isCardFor A) (patchAvail d card) st.activitiesList },
             ["Error updating activity card:"])) := by
  constructor
  · intro A cat res2 st tag attrs cs card2 hlook hfind havail hpsec
    have hskip : patchAvail d (Node.elem tag attrs cs) = Node.elem tag attrs cs := by
      simp only [patchAvail, havail]
    simp only [updateActivityCard, hlook, hfind, hskip, hpsec]
  · intro A cat res2 st card hlook hfind hpsec
    simp only [updateActivityCard, hlook, hfind, hpsec]

/-- Witness for C10: a card with only a participants section (availability
skipped, patch continues and succeeds), and a card with neither element
(patch aborts and a full reload runs). -/
theorem updateActivityCard_missing_availability_vs_participants_witness :
    (jsLookup sampleCatalog "Chess Club" = some sampleActivity
     ∧ ({ activitiesList :=
            [Node.elem "div" [("data-activity-name", "Chess Club")]
              [Node.elem "div" [("class", "participants-section")] []]],
          activitySelect := [] } : DomState).activitiesList.find? (isCardFor "Chess Club")
        = some (Node.elem "div" [("data-activity-name", "Chess Club")]
            [Node.elem "div" [("class", "participants-section")] []])
     ∧ updateFirstList (fun n => hasClassWord n "availability")
          (setChildren (availChildren (spotsLeft sampleActivity)))
          [Node.elem "div" [("class", "participants-section")] []] = none
     ∧ updateActivityCard "Chess Club" (FetchResult.ok sampleCatalog) FetchResult.err
          { activitiesList :=
              [Node.elem "div" [("data-activity-name", "Chess Club")]
                [Node.elem "div" [("class", "participants-section")] []]],
            activitySelect := [] }
        = ({ activitiesList :=
              replaceFirstBy (isCardFor "Chess Club")
                (Node.elem "div" [("data-activity-name", "Chess Club")]
                  [Node.elem "div" [("class", "participants-section")]
                    (participantsChildren "Chess Club" sampleActivity.participants)])
                [Node.elem "div" [("data-activity-name", "Chess Club")]
                  [Node.elem "div" [("class", "participants-section")] []]],
             activitySelect := [] }, []))
    ∧ (patchPsec "Chess Club" sampleActivity
          (patchAvail sampleActivity (Node.elem "div" [("data-activity-name", "Chess Club")] []))
        = none
     ∧ updateActivityCard "Chess Club" (FetchResult.ok sampleCatalog) FetchResult.err
          { activitiesList := [Node.elem "div" [("data-activity-name", "Chess Club")] []],
            activitySelect := [] }
        = (fetchActivities FetchResult.err
            { activitiesList :=
                replaceFirstBy (isCardFor "Chess Club")
                  (patchAvail sampleActivity
                    (Node.elem "div" [("data-activity-name", "Chess Club")] []))
                  [Node.elem "div" [("data-activity-name", "Chess Club")] []],
              activitySelect := [] },
           ["Error updating activity card:"])) :=
  ⟨⟨rfl, rfl, rfl,
    (updateActivityCard_missing_availability_vs_participants sampleActivity).1
      "Chess Club" sampleCatalog FetchResult.err _ "div"
      [("data-activity-name", "Chess Club")]
      [Node.elem "div" [("class", "participants-section")] []]
      (Node.elem "div" [("data-activity-name", "Chess Club")]
        [Node.elem "div" [("class", "participants-section")]
          (participantsChildren "Chess Club" sampleActivity.participants)])
      rfl rfl rfl rfl⟩,
   ⟨rfl,
    (updateActivityCard_missing_availability_vs_participants sampleActivity).2
      "Chess Club" sampleCatalog FetchResult.err _
      (Node.elem "div" [("data-activity-name", "Chess Club")] [])
      rfl rfl rfl⟩⟩

/-- The erased form of one participant list item: no input string can change
this shape. -/
def erasedLi : Node :=
  Node.elem "li" []
    [Node.text "",
     Node.elem "button"
       [("class", ""), ("data-activity", ""), ("data-email", ""), ("aria-label", "")]
       [Node.text ""]]

theorem eraseStrings_renderParticipantLi (n e : String) :
    eraseStrings (renderParticipantLi n e) = erasedLi := rfl

theorem eraseStringsList_map_li (n : String) (ps : List String) :
    eraseStringsList (ps.map (renderParticipantLi n))
      = List.replicate ps.length erasedLi := by
  induction ps with
  | nil => rfl
  | cons e t ih =>
    simp only [List.map_cons, eraseStringsList, eraseStrings_renderParticipantLi, ih,
      List.length_cons, List.replicate_succ]

/-- The erased children of a participants section depend only on the number
of participants. -/
def erasedPsecChildren (k : Nat) : List Node :=
  Node.elem "strong" [] [Node.text ""] ::
    (if k > 0 then [Node.elem "ul" [("class", "")] (List.replicate k erasedLi)]
     else [Node.elem "p" [("class", "")] [Node.text ""]])

theorem eraseStringsList_participantsChildren (n : String) (ps : List String) :
    eraseStringsList (participantsChildren n ps)
      = erasedPsecChildren ps.length := by
  by_cases hp : ps.length > 0
  · simp only [participantsChildren, hp, if_true, erasedPsecChildren, strongNode,
      eraseStringsList, eraseStrings, List.map, eraseStringsList_map_li]
  · simp only [participantsChildren, hp, if_false, erasedPsecChildren, strongNode,
      eraseStringsList, eraseStrings, List.map]

theorem textLeaves_renderParticipantLi (n e : String) :
    textLeaves (renderParticipantLi n e) = [e, "🗑️"] := rfl

theorem textLeavesList_map_li (n : String) (ps : List String) :
    textLeavesList (ps.map (renderParticipantLi n))
      = (ps.map (fun e => [e, "🗑️"])).flatten := by
  induction ps with
  | nil => rfl
  | cons e t ih =>
    simp only [List.map_cons, textLeavesList, textLeaves_renderParticipantLi, ih,
      List.flatten_cons]

theorem eraseStrings_renderCard (n : String) (d : Activity) :
    eraseStrings (renderCard n d)
      = Node.elem "div" [("class", ""), ("data-activity-name", "")]
          [Node.elem "h4" [] [Node.text ""],
           Node.elem "p" [] [Node.text ""],
           Node.elem "p" [] [Node.elem "strong" [] [Node.text ""], Node.text ""],
           Node.elem "p" [("class", "")] [Node.elem "strong" [] [Node.text ""], Node.text ""],
           Node.elem "div" [("class", "")]
             (erasedPsecChildren d.participants.length)] := by
  by_cases hp : d.participants.length > 0
  · simp only [renderCard, eraseStrings, eraseStringsList, availChildren, strongNode,
      List.map, participantsChildren, hp, if_true, erasedPsecChildren,
      eraseStringsList_map_li]
  · simp only [renderCard, eraseStrings, eraseStringsList, availChildren, strongNode,
      List.map, participantsChildren, hp, if_false, erasedPsecChildren]

/-- C3: every server-provided string (activity name, description, schedule,
participant email) ends up only as the literal payload of a text node or
attribute value: erasing all string payloads yields a tree that does not
depend on the strings at all (so no string can alter the markup structure),
and the text leaves carry the strings verbatim. The participants-section and
availability constructions are shared verbatim by the full-load render and
the single-card refresh, so both render paths are covered. -/
theorem renderCard_strings_never_markup (n n' : String) (d d' : Activity)
    (h : d.participants.length = d'.participants.length) :
    eraseStrings (renderCard n d) = eraseStrings (renderCard n' d')
    ∧ textLeaves (renderCard n d)
        = [n, d.description, "Schedule:", " " ++ d.schedule, "Availability:",
           " " ++ toString (spotsLeft d) ++ " spots left", "Participants:"]
          ++ (if d.participants.length > 0
              then (d.participants.map (fun e => [e, "🗑️"])).flatten
              else ["No participants yet. Be the first to sign up!"])
    ∧ eraseStringsList (participantsChildren n d.participants)
        = eraseStringsList (participantsChildren n' d'.participants)
    ∧ eraseStringsList (availChildren (spotsLeft d))
        = eraseStringsList (availChildren (spotsLeft d')) := by
  refine ⟨?_, ?_, ?_, rfl⟩
  · rw [eraseStrings_renderCard, eraseStrings_renderCard, h]
  · by_cases hp : d.participants.length > 0
    · simp [renderCard, textLeaves, textLeavesList, participantsChildren,
        availChildren, strongNode, hp, textLeavesList_map_li]
    · simp [renderCard, textLeaves, textLeavesList, participantsChildren,
        availChildren, strongNode, hp]
  · rw [eraseStringsList_participantsChildren, eraseStringsList_participantsChildren, h]

/-- Witness for C3 at two concrete catalogs with equally many participants:
one benign, one whose every string is an HTML-looking payload. -/
theorem renderCard_strings_never_markup_witness :
    (({ description := "<script>alert(1)</script>", schedule := "<b>x</b>",
        max_participants := 5,
        participants := ["<img src=x onerror=y>"] } : Activity).participants.length
      = sampleActivity.participants.length)
    ∧ eraseStrings (renderCard "<h1>owned</h1>"
        { description := "<script>alert(1)</script>", schedule := "<b>x</b>",
          max_participants := 5, participants := ["<img src=x onerror=y>"] })
      = eraseStrings (renderCard "Chess Club" sampleActivity) := by
  refine ⟨by decide, ?_⟩
  exact (renderCard_strings_never_markup "<h1>owned</h1>" "Chess Club"
    { description := "<script>alert(1)</script>", schedule := "<b>x</b>",
      max_participants := 5, participants := ["<img src=x onerror=y>"] }
    sampleActivity (by decide)).1

/-- C7 counterexample: a failed signup response whose JSON body contains the
detail field `""` displays the fallback `"An error occurred"`, not that
detail text, because `result.detail || "An error occurred"` treats the empty
string as falsy. -/
theorem signup_empty_detail_shows_fallback :
    (onSignupSubmit "Chess Club" "a@x.com"
        (MutationResult.resp false { message := none, detail := some "" })
        FetchResult.err FetchResult.err emptyDom toastInit).2.1.text
      = "An error occurred"
    ∧ "An error occurred" ≠ "" := ⟨rfl, by decide⟩

/-- C7 amended: for every signup request that completes with a non-ok HTTP
response whose JSON body contains a non-empty `detail` field, the message
area displays exactly that detail text with the error kind and becomes
visible, and no card refresh is performed (the DOM is returned unchanged and
the form is not reset). When `detail` is absent or empty the fallback
`"An error occurred"` is shown instead. -/
theorem signup_failure_shows_detail_no_refresh
    (a e : String) (m : Option String) (dtl : String) (hd : dtl ≠ "")
    (r1 r2 : FetchResult) (dom : DomState) (toast : ToastState) :
    onSignupSubmit a e (MutationResult.resp false { message := m, detail := some dtl })
        r1 r2 dom toast
      = (dom, showMessage dtl "error" toast, false)
    ∧ (showMessage dtl "error" toast).text = dtl
    ∧ (showMessage dtl "error" toast).classes = ["error"]
    ∧ toastVisible (showMessage dtl "error" toast) := by
  refine ⟨?_, rfl, rfl, ?_⟩
  · simp [onSignupSubmit, jsOrElse, hd]
  · show ("hidden" : String) ∉ ["error"]
    decide

/-- Witness for C7 at the response body of the spec's example. -/
theorem signup_failure_shows_detail_no_refresh_witness :
    ("Already signed up" : String) ≠ ""
    ∧ (onSignupSubmit "Chess Club" "a@x.com"
          (MutationResult.resp false { message := none, detail := some "Already signed up" })
          FetchResult.err FetchResult.err emptyDom toastInit
        = (emptyDom, showMessage "Already signed up" "error" toastInit, false)
       ∧ (showMessage "Already signed up" "error" toastInit).text = "Already signed up"
       ∧ (showMessage "Already signed up" "error" toastInit).classes = ["error"]
       ∧ toastVisible (showMessage "Already signed up" "error" toastInit)) :=
  ⟨by decide,
   signup_failure_shows_detail_no_refresh "Chess Club" "a@x.com" none
     "Already signed up" (by decide) FetchResult.err FetchResult.err emptyDom toastInit⟩

/-- C8: when the click target is a removal control and the confirmation
prompt is declined, no HTTP request is issued and the DOM and message state
are returned unchanged, whatever response a request would have produced. -/
theorem remove_declined_no_request_no_change
    (a e : String) (res : MutationResult) (r1 r2 : FetchResult)
    (dom : DomState) (toast : ToastState) :
    onActivitiesListClick true a e false res r1 r2 dom toast = (dom, toast, false) := rfl

/-- C9 counterexample: `showMessage` at t=0 ms and again at t=3000 ms; at
t=5000 ms the first call's timer fires and hides the message area, so the
second message was visible for only 2000 ms — the hide timer is not reset. -/
theorem showMessage_timer_not_reset :
    ¬ toastVisible
        (advanceTo 5000
          (showMessage "B" "success"
            (advanceTo 3000 (showMessage "A" "success" toastInit))))
    ∧ 5000 < 3000 + 5000 := ⟨by decide, by decide⟩

/-- C9 amended: every call to `showMessage` sets the message text and kind,
makes the message visible, and schedules an additional hide callback 5000 ms
after the call; hide callbacks scheduled by earlier calls are not cancelled,
so an earlier call's timer can hide a later message before its full 5 seconds
(as `showMessage_timer_not_reset` exhibits). -/
theorem showMessage_sets_and_schedules (text k : String) (s : ToastState)
    (hk : k = "success" ∨ k = "error") :
    (showMessage text k s).text = text
    ∧ (showMessage text k s).classes = [k]
    ∧ toastVisible (showMessage text k s)
    ∧ (showMessage text k s).timers = s.timers ++ [s.now + 5000] := by
  rcases hk with hk | hk <;> subst hk
  · exact ⟨rfl, rfl, by show ("hidden" : String) ∉ ["success"]; decide, rfl⟩
  · exact ⟨rfl, rfl, by show ("hidden" : String) ∉ ["error"]; decide, rfl⟩

/-- Witness for C9's amended statement at a concrete call. -/
theorem showMessage_sets_and_schedules_witness :
    (("error" : String) = "success" ∨ ("error" : String) = "error")
    ∧ ((showMessage "Removed" "error" toastInit).text = "Removed"
       ∧ (showMessage "Removed" "error" toastInit).classes = ["error"]
       ∧ toastVisible (showMessage "Removed" "error" toastInit)
       ∧ (showMessage "Removed" "error" toastInit).timers
           = toastInit.timers ++ [toastInit.now + 5000]) :=
  ⟨by decide,
   showMessage_sets_and_schedules "Removed" "error" toastInit (by decide)⟩
